import Mathlib

/-!
Shallow embedding of `ampligraph/latent_features/regularizers.py`.

Modelling choices:
* Python floats are modelled by exact rationals (`ℚ`); every numeric literal
  appearing in the claims (`1e-5`, `0.5`, `2.5`, ...) is exactly representable.
* A trainable-parameter tensor is modelled by the list of its entries, since
  the code only ever applies elementwise maps (`tf.abs`, `tf.square`,
  `tf.pow(·, 3)`) followed by `tf.reduce_sum`, which are insensitive to shape.
* The `'lambda'` hyperparameter can be, in Python, a scalar, a list, or any
  other object; `LambdaParam` has a constructor for each of the three cases
  that `_inputs_check` distinguishes (`np.isscalar`, `isinstance(·, list)`,
  anything else).
* The mutable instance dictionary `self._regularizer_parameters` holds only
  the key `'lambda'` for L1/L2/L3; the instance state is therefore that value.
  `apply` is embedded as explicit state passing: it returns the outcome
  (`Except String ℚ`, where `.error` stands for the raised `ValueError`)
  together with the state after the call.  When the Python code raises, no
  mutation has happened, so the returned state is the input state.
-/

namespace Regularizers

/-- A trainable-parameter tensor, modelled by the list of its entries. -/
abbrev Tensor := List ℚ

/-- The value stored under the key `'lambda'` in `_regularizer_parameters`:
a Python scalar, a Python list, or any other object (neither scalar nor
list), which is what `_inputs_check` dispatches on. -/
inductive LambdaParam where
  | scalar (v : ℚ)
  | list (vs : List ℚ)
  | other
deriving DecidableEq, Repr

/-- The mutable state of an L1/L2/L3 regularizer instance: the current value
of `self._regularizer_parameters['lambda']`. -/
structure RegState where
  lam : LambdaParam
deriving DecidableEq, Repr

/-- The message of the `ValueError` raised by `_inputs_check` in each of
`L1Regularizer`, `L2Regularizer` and `L3Regularizer`. -/
def lambdaErrMsg : String :=
  "Regularizer weight must be a scalar or a list with length equal to number of params passes"

/-- The default for the `'lambda'` hyperparameter,
`hyperparam_dict.get('lambda', 1e-5)`. -/
def lambdaDefault : ℚ := 1 / 100000

/-- Python dictionaries with string keys, as association lists. -/
abbrev HyperparamDict := List (String × LambdaParam)

/-- The process-wide `REGULARIZER_REGISTRY`: regularizer name to the
`class_params` dictionary of the registered class.  All four registrations
(`None`, `L1`, `L2`, `L3`) use the default `class_params = {}`. -/
def REGULARIZER_REGISTRY : List (String × List (String × ℚ)) :=
  [("None", []), ("L1", []), ("L2", []), ("L3", [])]

/-- `Regularizer.get_state`: `REGULARIZER_REGISTRY[self.name].class_params.get(param_name)`.
The registry subscript raises `KeyError` (caught and re-raised as an
exception, giving `.error`) when `name` is not registered; the inner
`dict.get` never raises and returns `None` (here `Option.none`) when
`param_name` is absent. -/
def get_state (name : String) (param_name : String) : Except String (Option ℚ) :=
  match REGULARIZER_REGISTRY.lookup name with
  | some class_params => .ok (class_params.lookup param_name)
  | none => .error "Invalid Key"

/-- `tf.reduce_sum(tf.abs(t))`. -/
def reduce_sum_abs (t : Tensor) : ℚ := (t.map (fun x => |x|)).sum

/-- `tf.reduce_sum(tf.square(t))`. -/
def reduce_sum_square (t : Tensor) : ℚ := (t.map (fun x => x * x)).sum

/-- `tf.reduce_sum(tf.pow(tf.abs(t), 3))`. -/
def reduce_sum_abs_cube (t : Tensor) : ℚ := (t.map (fun x => |x| ^ 3)).sum

namespace L1

/-- `L1Regularizer._init_hyperparams`:
`self._regularizer_parameters['lambda'] = hyperparam_dict.get('lambda', 1e-5)`. -/
def init_hyperparams (hyperparam_dict : HyperparamDict) : LambdaParam :=
  (hyperparam_dict.lookup "lambda").getD (.scalar lambdaDefault)

/-- `L1Regularizer.__init__`: runs `_init_hyperparams` inside a
`try/except KeyError`; `dict.get` never raises, so construction always
succeeds. -/
def mkReg (hyperparam_dict : HyperparamDict) : Except String RegState :=
  .ok ⟨init_hyperparams hyperparam_dict⟩

/-- `L1Regularizer._inputs_check`, returning the value that
`self._regularizer_parameters['lambda']` holds after the check: a scalar is
broadcast to `len(trainable_params)` copies, a list must have exactly that
length, anything else raises `ValueError`. -/
def inputs_check (lam : LambdaParam) (n : ℕ) : Except String (List ℚ) :=
  match lam with
  | .scalar v => .ok (List.replicate n v)
  | .list vs => if vs.length = n then .ok vs else .error lambdaErrMsg
  | .other => .error lambdaErrMsg

/-- `L1Regularizer._apply`: `loss_reg = 0`, then for `i in
range(len(trainable_params))`, `loss_reg += lambda[i] *
tf.reduce_sum(tf.abs(trainable_params[i]))`. -/
def applyLoss (lams : List ℚ) (trainable_params : List Tensor) : ℚ :=
  (List.range trainable_params.length).foldl
    (fun loss_reg i => loss_reg + lams.getD i 0 * reduce_sum_abs (trainable_params.getD i [])) 0

/-- `L1Regularizer.apply`: `_inputs_check` (which may mutate the stored
`'lambda'` or raise) followed by `_apply`; returns the outcome and the state
after the call. -/
def apply (s : RegState) (trainable_params : List Tensor) : Except String ℚ × RegState :=
  match inputs_check s.lam trainable_params.length with
  | .ok vs => (.ok (applyLoss vs trainable_params), ⟨.list vs⟩)
  | .error e => (.error e, s)

end L1

namespace L2

/-- `L2Regularizer._init_hyperparams` (textually identical to L1's). -/
def init_hyperparams (hyperparam_dict : HyperparamDict) : LambdaParam :=
  (hyperparam_dict.lookup "lambda").getD (.scalar lambdaDefault)

/-- `L2Regularizer.__init__` (see `L1.mkReg`). -/
def mkReg (hyperparam_dict : HyperparamDict) : Except String RegState :=
  .ok ⟨init_hyperparams hyperparam_dict⟩

/-- `L2Regularizer._inputs_check` (textually identical to L1's). -/
def inputs_check (lam : LambdaParam) (n : ℕ) : Except String (List ℚ) :=
  match lam with
  | .scalar v => .ok (List.replicate n v)
  | .list vs => if vs.length = n then .ok vs else .error lambdaErrMsg
  | .other => .error lambdaErrMsg

/-- `L2Regularizer._apply`: accumulates `lambda[i] *
tf.reduce_sum(tf.square(trainable_params[i]))`. -/
def applyLoss (lams : List ℚ) (trainable_params : List Tensor) : ℚ :=
  (List.range trainable_params.length).foldl
    (fun loss_reg i => loss_reg + lams.getD i 0 * reduce_sum_square (trainable_params.getD i [])) 0

/-- `L2Regularizer.apply` (see `L1.apply`). -/
def apply (s : RegState) (trainable_params : List Tensor) : Except String ℚ × RegState :=
  match inputs_check s.lam trainable_params.length with
  | .ok vs => (.ok (applyLoss vs trainable_params), ⟨.list vs⟩)
  | .error e => (.error e, s)

end L2

namespace L3

/-- `L3Regularizer._init_hyperparams` (textually identical to L1's). -/
def init_hyperparams (hyperparam_dict : HyperparamDict) : LambdaParam :=
  (hyperparam_dict.lookup "lambda").getD (.scalar lambdaDefault)

/-- `L3Regularizer.__init__` (see `L1.mkReg`). -/
def mkReg (hyperparam_dict : HyperparamDict) : Except String RegState :=
  .ok ⟨init_hyperparams hyperparam_dict⟩

/-- `L3Regularizer._inputs_check` (textually identical to L1's). -/
def inputs_check (lam : LambdaParam) (n : ℕ) : Except String (List ℚ) :=
  match lam with
  | .scalar v => .ok (List.replicate n v)
  | .list vs => if vs.length = n then .ok vs else .error lambdaErrMsg
  | .other => .error lambdaErrMsg

/-- `L3Regularizer._apply`: accumulates `lambda[i] *
tf.reduce_sum(tf.pow(tf.abs(trainable_params[i]), 3))`. -/
def applyLoss (lams : List ℚ) (trainable_params : List Tensor) : ℚ :=
  (List.range trainable_params.length).foldl
    (fun loss_reg i => loss_reg + lams.getD i 0 * reduce_sum_abs_cube (trainable_params.getD i [])) 0

/-- `L3Regularizer.apply` (see `L1.apply`). -/
def apply (s : RegState) (trainable_params : List Tensor) : Except String ℚ × RegState :=
  match inputs_check s.lam trainable_params.length with
  | .ok vs => (.ok (applyLoss vs trainable_params), ⟨.list vs⟩)
  | .error e => (.error e, s)

end L3

namespace NoReg

/-- `NoRegularizer._inputs_check`: `pass`. -/
def inputs_check (trainable_params : List Tensor) : Except String Unit := .ok ()

/-- `NoRegularizer._apply`: `return tf.constant(0.0)`. -/
def applyLoss (trainable_params : List Tensor) : ℚ := 0

/-- `NoRegularizer.apply`: `_inputs_check` then `_apply`. -/
def apply (trainable_params : List Tensor) : Except String ℚ :=
  match inputs_check trainable_params with
  | .ok _ => .ok (applyLoss trainable_params)
  | .error e => .error e

end NoReg

/-! Helper lemmas about the embedded operations. -/

theorem foldl_add_map (t : ℕ → ℚ) : ∀ (l : List ℕ) (c : ℚ),
    l.foldl (fun acc i => acc + t i) c = c + (l.map t).sum := by
  intro l
  induction l with
  | nil => intro c; simp
  | cons a l ih => intro c; simp [ih, add_assoc]

theorem range_map_getD_sum {α β : Type} (h : α → β → ℚ) (da : α) (db : β) :
    ∀ (xs : List α) (ys : List β), xs.length = ys.length →
      ((List.range ys.length).map (fun i => h (xs.getD i da) (ys.getD i db))).sum
        = (List.zipWith h xs ys).sum := by
  intro xs
  induction xs with
  | nil =>
    intro ys hl
    rw [← hl]
    simp
  | cons x xs ih =>
    intro ys hl
    cases ys with
    | nil => simp at hl
    | cons y ys =>
      have hlen : xs.length = ys.length := by simpa using hl
      simp only [List.length_cons, List.range_succ_eq_map, List.map_cons, List.map_map,
        Function.comp_def, List.getD_cons_zero, List.getD_cons_succ, List.sum_cons,
        List.zipWith_cons_cons]
      rw [ih ys hlen]

theorem l1_apply_scalar_eq (v : ℚ) (ps : List Tensor) :
    L1.apply ⟨.scalar v⟩ ps
      = (.ok (L1.applyLoss (List.replicate ps.length v) ps),
         ⟨.list (List.replicate ps.length v)⟩) := rfl

theorem l1_apply_list_of_len (vs : List ℚ) (ps : List Tensor) (h : vs.length = ps.length) :
    L1.apply ⟨.list vs⟩ ps = (.ok (L1.applyLoss vs ps), ⟨.list vs⟩) := by
  simp [L1.apply, L1.inputs_check, h]

theorem l1_apply_list_of_ne (vs : List ℚ) (ps : List Tensor) (h : ¬vs.length = ps.length) :
    L1.apply ⟨.list vs⟩ ps = (.error lambdaErrMsg, ⟨.list vs⟩) := by
  simp [L1.apply, L1.inputs_check, h]

theorem l1_apply_other_eq (ps : List Tensor) :
    L1.apply ⟨.other⟩ ps = (.error lambdaErrMsg, ⟨.other⟩) := rfl

theorem l2_apply_scalar_eq (v : ℚ) (ps : List Tensor) :
    L2.apply ⟨.scalar v⟩ ps
      = (.ok (L2.applyLoss (List.replicate ps.length v) ps),
         ⟨.list (List.replicate ps.length v)⟩) := rfl

theorem l2_apply_list_of_len (vs : List ℚ) (ps : List Tensor) (h : vs.length = ps.length) :
    L2.apply ⟨.list vs⟩ ps = (.ok (L2.applyLoss vs ps), ⟨.list vs⟩) := by
  simp [L2.apply, L2.inputs_check, h]

theorem l2_apply_list_of_ne (vs : List ℚ) (ps : List Tensor) (h : ¬vs.length = ps.length) :
    L2.apply ⟨.list vs⟩ ps = (.error lambdaErrMsg, ⟨.list vs⟩) := by
  simp [L2.apply, L2.inputs_check, h]

theorem l2_apply_other_eq (ps : List Tensor) :
    L2.apply ⟨.other⟩ ps = (.error lambdaErrMsg, ⟨.other⟩) := rfl

theorem l3_apply_scalar_eq (v : ℚ) (ps : List Tensor) :
    L3.apply ⟨.scalar v⟩ ps
      = (.ok (L3.applyLoss (List.replicate ps.length v) ps),
         ⟨.list (List.replicate ps.length v)⟩) := rfl

theorem l3_apply_list_of_len (vs : List ℚ) (ps : List Tensor) (h : vs.length = ps.length) :
    L3.apply ⟨.list vs⟩ ps = (.ok (L3.applyLoss vs ps), ⟨.list vs⟩) := by
  simp [L3.apply, L3.inputs_check, h]

theorem l3_apply_list_of_ne (vs : List ℚ) (ps : List Tensor) (h : ¬vs.length = ps.length) :
    L3.apply ⟨.list vs⟩ ps = (.error lambdaErrMsg, ⟨.list vs⟩) := by
  simp [L3.apply, L3.inputs_check, h]

theorem l3_apply_other_eq (ps : List Tensor) :
    L3.apply ⟨.other⟩ ps = (.error lambdaErrMsg, ⟨.other⟩) := rfl

theorem l1_applyLoss_eq_zipWith (lams : List ℚ) (ps : List Tensor)
    (hl : lams.length = ps.length) :
    L1.applyLoss lams ps
      = (List.zipWith (fun w t => w * (t.map (fun x => |x|)).sum) lams ps).sum := by
  calc L1.applyLoss lams ps
      = 0 + ((List.range ps.length).map
          (fun i => lams.getD i 0 * reduce_sum_abs (ps.getD i []))).sum :=
        foldl_add_map (fun i => lams.getD i 0 * reduce_sum_abs (ps.getD i []))
          (List.range ps.length) 0
    _ = ((List.range ps.length).map
          (fun i => lams.getD i 0 * reduce_sum_abs (ps.getD i []))).sum := zero_add _
    _ = (List.zipWith (fun w t => w * reduce_sum_abs t) lams ps).sum :=
        range_map_getD_sum (fun w t => w * reduce_sum_abs t) 0 [] lams ps hl
    _ = (List.zipWith (fun w t => w * (t.map (fun x => |x|)).sum) lams ps).sum := rfl

theorem l2_applyLoss_eq_zipWith (lams : List ℚ) (ps : List Tensor)
    (hl : lams.length = ps.length) :
    L2.applyLoss lams ps
      = (List.zipWith (fun w t => w * (t.map (fun x => x * x)).sum) lams ps).sum := by
  calc L2.applyLoss lams ps
      = 0 + ((List.range ps.length).map
          (fun i => lams.getD i 0 * reduce_sum_square (ps.getD i []))).sum :=
        foldl_add_map (fun i => lams.getD i 0 * reduce_sum_square (ps.getD i []))
          (List.range ps.length) 0
    _ = ((List.range ps.length).map
          (fun i => lams.getD i 0 * reduce_sum_square (ps.getD i []))).sum := zero_add _
    _ = (List.zipWith (fun w t => w * reduce_sum_square t) lams ps).sum :=
        range_map_getD_sum (fun w t => w * reduce_sum_square t) 0 [] lams ps hl
    _ = (List.zipWith (fun w t => w * (t.map (fun x => x * x)).sum) lams ps).sum := rfl

theorem l3_applyLoss_eq_zipWith (lams : List ℚ) (ps : List Tensor)
    (hl : lams.length = ps.length) :
    L3.applyLoss lams ps
      = (List.zipWith (fun w t => w * (t.map (fun x => |x| ^ 3)).sum) lams ps).sum := by
  calc L3.applyLoss lams ps
      = 0 + ((List.range ps.length).map
          (fun i => lams.getD i 0 * reduce_sum_abs_cube (ps.getD i []))).sum :=
        foldl_add_map (fun i => lams.getD i 0 * reduce_sum_abs_cube (ps.getD i []))
          (List.range ps.length) 0
    _ = ((List.range ps.length).map
          (fun i => lams.getD i 0 * reduce_sum_abs_cube (ps.getD i []))).sum := zero_add _
    _ = (List.zipWith (fun w t => w * reduce_sum_abs_cube t) lams ps).sum :=
        range_map_getD_sum (fun w t => w * reduce_sum_abs_cube t) 0 [] lams ps hl
    _ = (List.zipWith (fun w t => w * (t.map (fun x => |x| ^ 3)).sum) lams ps).sum := rfl

theorem l1_apply_ok_state (s : RegState) (ps : List Tensor) (l : ℚ) (s' : RegState)
    (h : L1.apply s ps = (.ok l, s')) :
    ∃ vs : List ℚ, s' = ⟨.list vs⟩ ∧ vs.length = ps.length ∧ l = L1.applyLoss vs ps := by
  obtain ⟨lam⟩ := s
  cases lam with
  | scalar v =>
    rw [l1_apply_scalar_eq] at h
    exact ⟨List.replicate ps.length v, (congrArg Prod.snd h).symm, by simp,
      (Except.ok.inj (congrArg Prod.fst h)).symm⟩
  | list vs =>
    by_cases hlen : vs.length = ps.length
    · rw [l1_apply_list_of_len vs ps hlen] at h
      exact ⟨vs, (congrArg Prod.snd h).symm, hlen,
        (Except.ok.inj (congrArg Prod.fst h)).symm⟩
    · rw [l1_apply_list_of_ne vs ps hlen] at h
      exact absurd (congrArg Prod.fst h) (fun hc => Except.noConfusion hc)
  | other =>
    rw [l1_apply_other_eq] at h
    exact absurd (congrArg Prod.fst h) (fun hc => Except.noConfusion hc)

theorem l2_apply_ok_state (s : RegState) (ps : List Tensor) (l : ℚ) (s' : RegState)
    (h : L2.apply s ps = (.ok l, s')) :
    ∃ vs : List ℚ, s' = ⟨.list vs⟩ ∧ vs.length = ps.length ∧ l = L2.applyLoss vs ps := by
  obtain ⟨lam⟩ := s
  cases lam with
  | scalar v =>
    rw [l2_apply_scalar_eq] at h
    exact ⟨List.replicate ps.length v, (congrArg Prod.snd h).symm, by simp,
      (Except.ok.inj (congrArg Prod.fst h)).symm⟩
  | list vs =>
    by_cases hlen : vs.length = ps.length
    · rw [l2_apply_list_of_len vs ps hlen] at h
      exact ⟨vs, (congrArg Prod.snd h).symm, hlen,
        (Except.ok.inj (congrArg Prod.fst h)).symm⟩
    · rw [l2_apply_list_of_ne vs ps hlen] at h
      exact absurd (congrArg Prod.fst h) (fun hc => Except.noConfusion hc)
  | other =>
    rw [l2_apply_other_eq] at h
    exact absurd (congrArg Prod.fst h) (fun hc => Except.noConfusion hc)

theorem l3_apply_ok_state (s : RegState) (ps : List Tensor) (l : ℚ) (s' : RegState)
    (h : L3.apply s ps = (.ok l, s')) :
    ∃ vs : List ℚ, s' = ⟨.list vs⟩ ∧ vs.length = ps.length ∧ l = L3.applyLoss vs ps := by
  obtain ⟨lam⟩ := s
  cases lam with
  | scalar v =>
    rw [l3_apply_scalar_eq] at h
    exact ⟨List.replicate ps.length v, (congrArg Prod.snd h).symm, by simp,
      (Except.ok.inj (congrArg Prod.fst h)).symm⟩
  | list vs =>
    by_cases hlen : vs.length = ps.length
    · rw [l3_apply_list_of_len vs ps hlen] at h
      exact ⟨vs, (congrArg Prod.snd h).symm, hlen,
        (Except.ok.inj (congrArg Prod.fst h)).symm⟩
    · rw [l3_apply_list_of_ne vs ps hlen] at h
      exact absurd (congrArg Prod.fst h) (fun hc => Except.noConfusion hc)
  | other =>
    rw [l3_apply_other_eq] at h
    exact absurd (congrArg Prod.fst h) (fun hc => Except.noConfusion hc)

/-! Claim theorems. -/

/-- Claim C1: for each of L1, L2 and L3, when the stored `'lambda'` is a
scalar and `apply` is called with `n` trainable-parameter tensors, the
validation replaces the scalar with the list of exactly `n` copies of it,
and the returned loss equals the loss `apply` returns for an instance
constructed (via `_init_hyperparams`) with the explicit list of `n` copies
of the same scalar. -/
theorem l1_l2_l3_scalar_broadcast_equiv (v : ℚ) (ps : List Tensor) :
    ((L1.apply ⟨.scalar v⟩ ps).2 = ⟨.list (List.replicate ps.length v)⟩
      ∧ (L1.apply ⟨.scalar v⟩ ps).1
          = (L1.apply ⟨L1.init_hyperparams
              [("lambda", .list (List.replicate ps.length v))]⟩ ps).1)
  ∧ ((L2.apply ⟨.scalar v⟩ ps).2 = ⟨.list (List.replicate ps.length v)⟩
      ∧ (L2.apply ⟨.scalar v⟩ ps).1
          = (L2.apply ⟨L2.init_hyperparams
              [("lambda", .list (List.replicate ps.length v))]⟩ ps).1)
  ∧ ((L3.apply ⟨.scalar v⟩ ps).2 = ⟨.list (List.replicate ps.length v)⟩
      ∧ (L3.apply ⟨.scalar v⟩ ps).1
          = (L3.apply ⟨L3.init_hyperparams
              [("lambda", .list (List.replicate ps.length v))]⟩ ps).1) := by
  have h1 : L1.init_hyperparams [("lambda", LambdaParam.list (List.replicate ps.length v))]
      = LambdaParam.list (List.replicate ps.length v) := rfl
  have h2 : L2.init_hyperparams [("lambda", LambdaParam.list (List.replicate ps.length v))]
      = LambdaParam.list (List.replicate ps.length v) := rfl
  have h3 : L3.init_hyperparams [("lambda", LambdaParam.list (List.replicate ps.length v))]
      = LambdaParam.list (List.replicate ps.length v) := rfl
  have hr : (List.replicate ps.length v).length = ps.length := by simp
  refine ⟨⟨rfl, ?_⟩, ⟨rfl, ?_⟩, ⟨rfl, ?_⟩⟩
  · rw [h1, l1_apply_scalar_eq, l1_apply_list_of_len (List.replicate ps.length v) ps hr]
  · rw [h2, l2_apply_scalar_eq, l2_apply_list_of_len (List.replicate ps.length v) ps hr]
  · rw [h3, l3_apply_scalar_eq, l3_apply_list_of_len (List.replicate ps.length v) ps hr]

/-- Claim C2: for each of L1, L2 and L3, `apply` with a stored `'lambda'`
list whose length differs from the number of trainable-parameter tensors
raises the `ValueError` (leaving the list untouched, neither truncated nor
padded), and so does `apply` with a stored `'lambda'` that is neither a
scalar nor a list. -/
theorem l1_l2_l3_invalid_lambda_raises (vs : List ℚ) (ps : List Tensor)
    (h : vs.length ≠ ps.length) :
    (L1.apply ⟨.list vs⟩ ps = (.error lambdaErrMsg, ⟨.list vs⟩)
      ∧ L1.apply ⟨.other⟩ ps = (.error lambdaErrMsg, ⟨.other⟩))
  ∧ (L2.apply ⟨.list vs⟩ ps = (.error lambdaErrMsg, ⟨.list vs⟩)
      ∧ L2.apply ⟨.other⟩ ps = (.error lambdaErrMsg, ⟨.other⟩))
  ∧ (L3.apply ⟨.list vs⟩ ps = (.error lambdaErrMsg, ⟨.list vs⟩)
      ∧ L3.apply ⟨.other⟩ ps = (.error lambdaErrMsg, ⟨.other⟩)) :=
  ⟨⟨l1_apply_list_of_ne vs ps h, l1_apply_other_eq ps⟩,
   ⟨l2_apply_list_of_ne vs ps h, l2_apply_other_eq ps⟩,
   ⟨l3_apply_list_of_ne vs ps h, l3_apply_other_eq ps⟩⟩

/-- Witness for C2 at `lambda = [1]`, no tensors. -/
theorem l1_l2_l3_invalid_lambda_raises_witness :
    [(1 : ℚ)].length ≠ ([] : List Tensor).length
  ∧ ((L1.apply ⟨.list [1]⟩ [] = (.error lambdaErrMsg, ⟨.list [1]⟩)
      ∧ L1.apply ⟨.other⟩ [] = (.error lambdaErrMsg, ⟨.other⟩))
    ∧ (L2.apply ⟨.list [1]⟩ [] = (.error lambdaErrMsg, ⟨.list [1]⟩)
      ∧ L2.apply ⟨.other⟩ [] = (.error lambdaErrMsg, ⟨.other⟩))
    ∧ (L3.apply ⟨.list [1]⟩ [] = (.error lambdaErrMsg, ⟨.list [1]⟩)
      ∧ L3.apply ⟨.other⟩ [] = (.error lambdaErrMsg, ⟨.other⟩))) :=
  ⟨by decide, l1_l2_l3_invalid_lambda_raises [1] [] (by decide)⟩

/-- Claim C3: `L1Regularizer.apply`, on a per-tensor weight list of length
matching the tensor list, returns the sum over tensors of
`weight_i * (sum of absolute values of tensor_i)` (and leaves the state
unchanged). -/
theorem l1_apply_weighted_abs_sum (lams : List ℚ) (ps : List Tensor)
    (hl : lams.length = ps.length) :
    L1.apply ⟨.list lams⟩ ps
      = (.ok ((List.zipWith (fun w t => w * (t.map (fun x => |x|)).sum) lams ps).sum),
         ⟨.list lams⟩) := by
  rw [l1_apply_list_of_len lams ps hl, l1_applyLoss_eq_zipWith lams ps hl]

/-- Witness for C3: on tensors `[[-1, 2], [3]]` with `lambda = [1, 1]` the
L1 loss is `6`. -/
theorem l1_apply_weighted_abs_sum_witness :
    [(1 : ℚ), 1].length = ([[-1, 2], [3]] : List Tensor).length
  ∧ L1.apply ⟨.list [1, 1]⟩ [[-1, 2], [3]] = (.ok 6, ⟨.list [1, 1]⟩) := by
  refine ⟨by decide, ?_⟩
  rw [l1_apply_weighted_abs_sum [1, 1] [[-1, 2], [3]] (by decide)]
  norm_num [List.zipWith]

/-- Claim C4: `L2Regularizer.apply`, on a per-tensor weight list of length
matching the tensor list, returns the sum over tensors of
`weight_i * (sum of squared values of tensor_i)` (and leaves the state
unchanged). -/
theorem l2_apply_weighted_square_sum (lams : List ℚ) (ps : List Tensor)
    (hl : lams.length = ps.length) :
    L2.apply ⟨.list lams⟩ ps
      = (.ok ((List.zipWith (fun w t => w * (t.map (fun x => x * x)).sum) lams ps).sum),
         ⟨.list lams⟩) := by
  rw [l2_apply_list_of_len lams ps hl, l2_applyLoss_eq_zipWith lams ps hl]

/-- Witness for C4: on tensors `[[-1, 2]]` with `lambda = [1/2]` the L2 loss
is `5/2` (that is, `0.5 * (1 + 4) = 2.5`). -/
theorem l2_apply_weighted_square_sum_witness :
    [(1 : ℚ) / 2].length = ([[-1, 2]] : List Tensor).length
  ∧ L2.apply ⟨.list [1 / 2]⟩ [[-1, 2]] = (.ok (5 / 2), ⟨.list [1 / 2]⟩) := by
  refine ⟨by decide, ?_⟩
  rw [l2_apply_weighted_square_sum [1 / 2] [[-1, 2]] (by decide)]
  norm_num [List.zipWith]

/-- Claim C5: `L3Regularizer.apply`, on a per-tensor weight list of length
matching the tensor list, returns the sum over tensors of
`weight_i * (sum of cubed absolute values of tensor_i)` (and leaves the
state unchanged). -/
theorem l3_apply_weighted_abs_cube_sum (lams : List ℚ) (ps : List Tensor)
    (hl : lams.length = ps.length) :
    L3.apply ⟨.list lams⟩ ps
      = (.ok ((List.zipWith (fun w t => w * (t.map (fun x => |x| ^ 3)).sum) lams ps).sum),
         ⟨.list lams⟩) := by
  rw [l3_apply_list_of_len lams ps hl, l3_applyLoss_eq_zipWith lams ps hl]

/-- Witness for C5: on tensors `[[-2]]` with `lambda = [1]` the L3 loss is
`8`. -/
theorem l3_apply_weighted_abs_cube_sum_witness :
    [(1 : ℚ)].length = ([[-2]] : List Tensor).length
  ∧ L3.apply ⟨.list [1]⟩ [[-2]] = (.ok 8, ⟨.list [1]⟩) := by
  refine ⟨by decide, ?_⟩
  rw [l3_apply_weighted_abs_cube_sum [1] [[-2]] (by decide)]
  norm_num [List.zipWith]

/-- Claim C6: `NoRegularizer.apply` returns the constant zero for every
list of trainable-parameter tensors. -/
theorem noreg_apply_zero (ps : List Tensor) : NoReg.apply ps = .ok 0 := rfl

/-- Claim C7: for each of L1, L2 and L3, construction from a hyperparameter
dictionary that has no `'lambda'` key succeeds and resolves `'lambda'` to
exactly `1e-5 = 1/100000`. -/
theorem l1_l2_l3_lambda_defaults (d : HyperparamDict) (h : d.lookup "lambda" = none) :
    L1.mkReg d = .ok ⟨.scalar (1 / 100000)⟩
  ∧ L2.mkReg d = .ok ⟨.scalar (1 / 100000)⟩
  ∧ L3.mkReg d = .ok ⟨.scalar (1 / 100000)⟩ := by
  refine ⟨?_, ?_, ?_⟩ <;>
    simp [L1.mkReg, L2.mkReg, L3.mkReg, L1.init_hyperparams, L2.init_hyperparams,
      L3.init_hyperparams, h, lambdaDefault]

/-- Witness for C7 at the empty hyperparameter dictionary. -/
theorem l1_l2_l3_lambda_defaults_witness :
    ([] : HyperparamDict).lookup "lambda" = none
  ∧ (L1.mkReg [] = .ok ⟨.scalar (1 / 100000)⟩
    ∧ L2.mkReg [] = .ok ⟨.scalar (1 / 100000)⟩
    ∧ L3.mkReg [] = .ok ⟨.scalar (1 / 100000)⟩) :=
  ⟨rfl, l1_l2_l3_lambda_defaults [] rfl⟩

/-- Claim C8 (refuted, code bug): `get_state` with a parameter name that was
never registered does NOT fail; `class_params.get(param_name)` silently
returns `None` for every registered regularizer, the `except KeyError`
branch being dead code for this lookup. -/
theorem get_state_unregistered_param_silent_none :
    get_state "None" "unregistered_param" = .ok none
  ∧ get_state "L1" "unregistered_param" = .ok none
  ∧ get_state "L2" "unregistered_param" = .ok none
  ∧ get_state "L3" "unregistered_param" = .ok none :=
  ⟨rfl, rfl, rfl, rfl⟩

/-- Claim C9: for each of L1, L2 and L3, the only state mutation `apply`
performs is the scalar-to-list broadcast: a successful call repeated on the
same input returns the same loss and the same state; after any successful
call, further calls with the same tensor count leave the stored `'lambda'`
unchanged; a call that raises the value error leaves the state unchanged;
and a stored `'lambda'` that is already a list is never changed. -/
theorem l1_l2_l3_apply_state_stability :
    ((∀ (s : RegState) (ps : List Tensor) (l : ℚ) (s' : RegState),
        L1.apply s ps = (.ok l, s') → L1.apply s' ps = (.ok l, s'))
      ∧ (∀ (s : RegState) (ps : List Tensor) (l : ℚ) (s' : RegState) (ps2 : List Tensor),
          L1.apply s ps = (.ok l, s') → ps2.length = ps.length → (L1.apply s' ps2).2 = s')
      ∧ (∀ (s : RegState) (ps : List Tensor) (e : String),
          (L1.apply s ps).1 = .error e → (L1.apply s ps).2 = s)
      ∧ (∀ (vs : List ℚ) (ps : List Tensor), (L1.apply ⟨.list vs⟩ ps).2 = ⟨.list vs⟩))
  ∧ ((∀ (s : RegState) (ps : List Tensor) (l : ℚ) (s' : RegState),
        L2.apply s ps = (.ok l, s') → L2.apply s' ps = (.ok l, s'))
      ∧ (∀ (s : RegState) (ps : List Tensor) (l : ℚ) (s' : RegState) (ps2 : List Tensor),
          L2.apply s ps = (.ok l, s') → ps2.length = ps.length → (L2.apply s' ps2).2 = s')
      ∧ (∀ (s : RegState) (ps : List Tensor) (e : String),
          (L2.apply s ps).1 = .error e → (L2.apply s ps).2 = s)
      ∧ (∀ (vs : List ℚ) (ps : List Tensor), (L2.apply ⟨.list vs⟩ ps).2 = ⟨.list vs⟩))
  ∧ ((∀ (s : RegState) (ps : List Tensor) (l : ℚ) (s' : RegState),
        L3.apply s ps = (.ok l, s') → L3.apply s' ps = (.ok l, s'))
      ∧ (∀ (s : RegState) (ps : List Tensor) (l : ℚ) (s' : RegState) (ps2 : List Tensor),
          L3.apply s ps = (.ok l, s') → ps2.length = ps.length → (L3.apply s' ps2).2 = s')
      ∧ (∀ (s : RegState) (ps : List Tensor) (e : String),
          (L3.apply s ps).1 = .error e → (L3.apply s ps).2 = s)
      ∧ (∀ (vs : List ℚ) (ps : List Tensor), (L3.apply ⟨.list vs⟩ ps).2 = ⟨.list vs⟩)) := by
  refine ⟨⟨?_, ?_, ?_, ?_⟩, ⟨?_, ?_, ?_, ?_⟩, ⟨?_, ?_, ?_, ?_⟩⟩
  · intro s ps l s' h
    obtain ⟨vs, rfl, hlen, rfl⟩ := l1_apply_ok_state s ps l s' h
    exact l1_apply_list_of_len vs ps hlen
  · intro s ps l s' ps2 h hlen2
    obtain ⟨vs, rfl, hlen, -⟩ := l1_apply_ok_state s ps l s' h
    rw [l1_apply_list_of_len vs ps2 (hlen.trans hlen2.symm)]
  · intro s ps e h
    obtain ⟨lam⟩ := s
    cases lam with
    | scalar v =>
      rw [l1_apply_scalar_eq] at h
      exact Except.noConfusion h
    | list vs =>
      by_cases hlen : vs.length = ps.length
      · rw [l1_apply_list_of_len vs ps hlen] at h
        exact Except.noConfusion h
      · rw [l1_apply_list_of_ne vs ps hlen]
    | other => rfl
  · intro vs ps
    by_cases hlen : vs.length = ps.length
    · rw [l1_apply_list_of_len vs ps hlen]
    · rw [l1_apply_list_of_ne vs ps hlen]
  · intro s ps l s' h
    obtain ⟨vs, rfl, hlen, rfl⟩ := l2_apply_ok_state s ps l s' h
    exact l2_apply_list_of_len vs ps hlen
  · intro s ps l s' ps2 h hlen2
    obtain ⟨vs, rfl, hlen, -⟩ := l2_apply_ok_state s ps l s' h
    rw [l2_apply_list_of_len vs ps2 (hlen.trans hlen2.symm)]
  · intro s ps e h
    obtain ⟨lam⟩ := s
    cases lam with
    | scalar v =>
      rw [l2_apply_scalar_eq] at h
      exact Except.noConfusion h
    | list vs =>
      by_cases hlen : vs.length = ps.length
      · rw [l2_apply_list_of_len vs ps hlen] at h
        exact Except.noConfusion h
      · rw [l2_apply_list_of_ne vs ps hlen]
    | other => rfl
  · intro vs ps
    by_cases hlen : vs.length = ps.length
    · rw [l2_apply_list_of_len vs ps hlen]
    · rw [l2_apply_list_of_ne vs ps hlen]
  · intro s ps l s' h
    obtain ⟨vs, rfl, hlen, rfl⟩ := l3_apply_ok_state s ps l s' h
    exact l3_apply_list_of_len vs ps hlen
  · intro s ps l s' ps2 h hlen2
    obtain ⟨vs, rfl, hlen, -⟩ := l3_apply_ok_state s ps l s' h
    rw [l3_apply_list_of_len vs ps2 (hlen.trans hlen2.symm)]
  · intro s ps e h
    obtain ⟨lam⟩ := s
    cases lam with
    | scalar v =>
      rw [l3_apply_scalar_eq] at h
      exact Except.noConfusion h
    | list vs =>
      by_cases hlen : vs.length = ps.length
      · rw [l3_apply_list_of_len vs ps hlen] at h
        exact Except.noConfusion h
      · rw [l3_apply_list_of_ne vs ps hlen]
    | other => rfl
  · intro vs ps
    by_cases hlen : vs.length = ps.length
    · rw [l3_apply_list_of_len vs ps hlen]
    · rw [l3_apply_list_of_ne vs ps hlen]

/-- Witness for C9: a first L1 call broadcasting `lambda = 1` over one
tensor, and the repeated call returning the same loss and state. -/
theorem l1_l2_l3_apply_state_stability_witness :
    L1.apply ⟨.scalar 1⟩ [[2]] = (.ok 2, ⟨.list [1]⟩)
  ∧ L1.apply ⟨.list [1]⟩ [[2]] = (.ok 2, ⟨.list [1]⟩) := by
  have h1 : L1.apply ⟨.scalar 1⟩ [[2]] = (.ok 2, ⟨.list [1]⟩) := by
    simp [L1.apply, L1.inputs_check, L1.applyLoss, reduce_sum_abs, List.range_succ]
  exact ⟨h1, l1_l2_l3_apply_state_stability.1.1 ⟨.scalar 1⟩ [[2]] 2 ⟨.list [1]⟩ h1⟩

/-- Claim C10: for each of L1, L2 and L3, after a first `apply` with a
scalar `'lambda'` and `n` tensors, any later `apply` with `m ≠ n` tensors
raises the value error (the broadcast having fixed the list length to `n`),
and with `n = 0` the scalar broadcasts to the empty list and `apply`
returns `0`. -/
theorem l1_l2_l3_scalar_binds_first_count :
    ((∀ (v : ℚ) (ps ps2 : List Tensor), ps2.length ≠ ps.length →
        (L1.apply (L1.apply ⟨.scalar v⟩ ps).2 ps2).1 = .error lambdaErrMsg)
      ∧ (∀ v : ℚ, L1.apply ⟨.scalar v⟩ [] = (.ok 0, ⟨.list []⟩)))
  ∧ ((∀ (v : ℚ) (ps ps2 : List Tensor), ps2.length ≠ ps.length →
        (L2.apply (L2.apply ⟨.scalar v⟩ ps).2 ps2).1 = .error lambdaErrMsg)
      ∧ (∀ v : ℚ, L2.apply ⟨.scalar v⟩ [] = (.ok 0, ⟨.list []⟩)))
  ∧ ((∀ (v : ℚ) (ps ps2 : List Tensor), ps2.length ≠ ps.length →
        (L3.apply (L3.apply ⟨.scalar v⟩ ps).2 ps2).1 = .error lambdaErrMsg)
      ∧ (∀ v : ℚ, L3.apply ⟨.scalar v⟩ [] = (.ok 0, ⟨.list []⟩))) := by
  refine ⟨⟨?_, ?_⟩, ⟨?_, ?_⟩, ⟨?_, ?_⟩⟩
  · intro v ps ps2 hne
    have h2 : ¬(List.replicate ps.length v).length = ps2.length := by
      simpa using hne.symm
    rw [l1_apply_scalar_eq]
    show (L1.apply ⟨.list (List.replicate ps.length v)⟩ ps2).1 = .error lambdaErrMsg
    rw [l1_apply_list_of_ne (List.replicate ps.length v) ps2 h2]
  · intro v
    rfl
  · intro v ps ps2 hne
    have h2 : ¬(List.replicate ps.length v).length = ps2.length := by
      simpa using hne.symm
    rw [l2_apply_scalar_eq]
    show (L2.apply ⟨.list (List.replicate ps.length v)⟩ ps2).1 = .error lambdaErrMsg
    rw [l2_apply_list_of_ne (List.replicate ps.length v) ps2 h2]
  · intro v
    rfl
  · intro v ps ps2 hne
    have h2 : ¬(List.replicate ps.length v).length = ps2.length := by
      simpa using hne.symm
    rw [l3_apply_scalar_eq]
    show (L3.apply ⟨.list (List.replicate ps.length v)⟩ ps2).1 = .error lambdaErrMsg
    rw [l3_apply_list_of_ne (List.replicate ps.length v) ps2 h2]
  · intro v
    rfl

/-- Witness for C10: after broadcasting over one tensor, applying to zero
tensors raises the value error, for each of L1, L2 and L3. -/
theorem l1_l2_l3_scalar_binds_first_count_witness :
    ([] : List Tensor).length ≠ ([[1]] : List Tensor).length
  ∧ ((L1.apply (L1.apply ⟨.scalar 1⟩ [[1]]).2 []).1 = .error lambdaErrMsg
    ∧ (L2.apply (L2.apply ⟨.scalar 1⟩ [[1]]).2 []).1 = .error lambdaErrMsg
    ∧ (L3.apply (L3.apply ⟨.scalar 1⟩ [[1]]).2 []).1 = .error lambdaErrMsg) :=
  ⟨by decide,
   l1_l2_l3_scalar_binds_first_count.1.1 1 [[1]] [] (by decide),
   l1_l2_l3_scalar_binds_first_count.2.1.1 1 [[1]] [] (by decide),
   l1_l2_l3_scalar_binds_first_count.2.2.1 1 [[1]] [] (by decide)⟩

end Regularizers
